import Mathlib

/-!
Verification of the LayerCal computation engine: a shallow embedding of the
per-layer-kind formula registry (`src/config/layerTypes.js`), the memory
estimator (`calculateMemory`), the model aggregator and configuration-update
logic (`src/components/LayerCal.jsx`), and the run-length grouping pass of the
code generator.  JavaScript numbers are modelled as `ℕ` where the source only
performs non-negative integer arithmetic and as `ℚ` where fractional values
(rates, percentages) occur; JavaScript string comparison with `===` is
modelled by decidable equality on `String`.
-/

namespace LayerCal

/-! ## Formula registry (`getLayerTypes` in src/config/layerTypes.js)

Each layer kind's `calculate` (parameter count) and `calculateFLOPs` lambdas,
one Lean function per lambda.  Context arguments that the source declares with
a default value (`seqLen = 128`, `inputSize = 224`, `batchSize = 32`, ...) are
explicit arguments here; `calculateFLOPsDefault` below applies each kind's
defaults, which is what a call with the context omitted does. -/

/-- `embedding.calculate`: `vocab_size * embedding_dim`. -/
def embedding_calculate (vocab_size embedding_dim : ℕ) : ℕ :=
  vocab_size * embedding_dim

/-- `linear.calculate`:
`input_dim * output_dim + (use_bias ? output_dim : 0)`. -/
def linear_calculate (input_dim output_dim : ℕ) (use_bias : Bool) : ℕ :=
  input_dim * output_dim + (if use_bias then output_dim else 0)

/-- `linear.calculateFLOPs`: `2 * input_dim * output_dim` (the bias flag is
not read by this lambda). -/
def linear_calculateFLOPs (input_dim output_dim : ℕ) : ℕ :=
  2 * input_dim * output_dim

/-- `conv2d.calculate`:
`in_channels * out_channels * kernel_size² + (use_bias ? out_channels : 0)`. -/
def conv2d_calculate (in_channels out_channels kernel_size : ℕ)
    (use_bias : Bool) : ℕ :=
  in_channels * out_channels * kernel_size * kernel_size +
    (if use_bias then out_channels else 0)

/-- `conv2d.calculateFLOPs(params, inputSize = 224)` with
`outputSize = inputSize` (same padding). -/
def conv2d_calculateFLOPs (in_channels out_channels kernel_size inputSize : ℕ) :
    ℕ :=
  let outputSize := inputSize
  2 * in_channels * out_channels * kernel_size * kernel_size *
    outputSize * outputSize

/-- `lstm.calculate`: a loop over `layer = 0 .. num_layers - 1` accumulating
`params_per_direction * direction`, where
`params_per_direction = 4 * (input_dim * H + H * H + H * 2)` and `input_dim`
is the configured input size for layer 0 and `H * direction` afterwards. -/
def lstm_calculate (input_size hidden_size num_layers : ℕ)
    (bidirectional : Bool) : ℕ :=
  let direction : ℕ := if bidirectional then 2 else 1
  (List.range num_layers).foldl
    (fun total layer =>
      let input_dim := if layer = 0 then input_size else hidden_size * direction
      let params_per_direction :=
        4 * (input_dim * hidden_size + hidden_size * hidden_size +
              hidden_size * 2)
      total + params_per_direction * direction)
    0

/-- `lstm.calculateFLOPs(params, seqLen = 128)`: per layer
`4 * 2 * (input_dim * H + H * H) * seqLen * direction`, summed as in
`lstm_calculate`. -/
def lstm_calculateFLOPs (input_size hidden_size num_layers : ℕ)
    (bidirectional : Bool) (seqLen : ℕ) : ℕ :=
  let direction : ℕ := if bidirectional then 2 else 1
  (List.range num_layers).foldl
    (fun total layer =>
      let input_dim := if layer = 0 then input_size else hidden_size * direction
      let flops_per_step :=
        4 * 2 * (input_dim * hidden_size + hidden_size * hidden_size)
      total + flops_per_step * seqLen * direction)
    0

/-- `gru.calculate`: as `lstm.calculate` with 3 gates instead of 4. -/
def gru_calculate (input_size hidden_size num_layers : ℕ)
    (bidirectional : Bool) : ℕ :=
  let direction : ℕ := if bidirectional then 2 else 1
  (List.range num_layers).foldl
    (fun total layer =>
      let input_dim := if layer = 0 then input_size else hidden_size * direction
      let params_per_direction :=
        3 * (input_dim * hidden_size + hidden_size * hidden_size +
              hidden_size * 2)
      total + params_per_direction * direction)
    0

/-- `gru.calculateFLOPs(params, seqLen = 128)`: as `lstm.calculateFLOPs` with
3 gates instead of 4. -/
def gru_calculateFLOPs (input_size hidden_size num_layers : ℕ)
    (bidirectional : Bool) (seqLen : ℕ) : ℕ :=
  let direction : ℕ := if bidirectional then 2 else 1
  (List.range num_layers).foldl
    (fun total layer =>
      let input_dim := if layer = 0 then input_size else hidden_size * direction
      let flops_per_step :=
        3 * 2 * (input_dim * hidden_size + hidden_size * hidden_size)
      total + flops_per_step * seqLen * direction)
    0

/-- `transformer.calculate`: `mha + ffn + ln` with
`mha = 4 * (d_model² + d_model)`,
`ffn = d_model * d_ff + d_ff + d_ff * d_model + d_model`,
`ln = 2 * (d_model * 2)`. -/
def transformer_calculate (d_model d_ff : ℕ) : ℕ :=
  let mha := 4 * (d_model * d_model + d_model)
  let ffn := d_model * d_ff + d_ff + d_ff * d_model + d_model
  let ln := 2 * (d_model * 2)
  mha + ffn + ln

/-- `transformer.calculateFLOPs(params, seqLen = 512)`:
QKV projections + attention scores + output projection + FFN. -/
def transformer_calculateFLOPs (d_model d_ff seqLen : ℕ) : ℕ :=
  let qkvProj := 3 * 2 * seqLen * d_model * d_model
  let attnScores := 2 * seqLen * seqLen * d_model
  let attnOutput := 2 * seqLen * d_model * d_model
  let ffn := seqLen * (2 * d_model * d_ff + 2 * d_ff * d_model)
  qkvProj + attnScores + attnOutput + ffn

/-- `attention.calculate`: `4 * (d_model² + d_model)`. -/
def attention_calculate (d_model : ℕ) : ℕ :=
  4 * (d_model * d_model + d_model)

/-- `attention.calculateFLOPs(params, seqLen = 512)`: the transformer terms
without the FFN. -/
def attention_calculateFLOPs (d_model seqLen : ℕ) : ℕ :=
  let qkvProj := 3 * 2 * seqLen * d_model * d_model
  let attnScores := 2 * seqLen * seqLen * d_model
  let attnOutput := 2 * seqLen * d_model * d_model
  qkvProj + attnScores + attnOutput

/-- `batchnorm.calculate`: `num_features * 2`. -/
def batchnorm_calculate (num_features : ℕ) : ℕ :=
  num_features * 2

/-- `batchnorm.calculateFLOPs(params, batchSize = 32, spatialSize = 1)`:
`num_features * batchSize * spatialSize * 4`. -/
def batchnorm_calculateFLOPs (num_features batchSize spatialSize : ℕ) : ℕ :=
  num_features * batchSize * spatialSize * 4

/-- `layernorm.calculate`: `normalized_shape * 2`. -/
def layernorm_calculate (normalized_shape : ℕ) : ℕ :=
  normalized_shape * 2

/-- `layernorm.calculateFLOPs(params, batchSize = 32, seqLen = 512)`:
`normalized_shape * batchSize * seqLen * 5`. -/
def layernorm_calculateFLOPs (normalized_shape batchSize seqLen : ℕ) : ℕ :=
  normalized_shape * batchSize * seqLen * 5

/-- `maxpool2d.calculateFLOPs(params, channels = 64, inputSize = 224)`:
`outputSize = Math.floor(inputSize / kernel_size)` (natural division), then
`channels * outputSize² * kernel_size²`. -/
def maxpool2d_calculateFLOPs (kernel_size channels inputSize : ℕ) : ℕ :=
  let outputSize := inputSize / kernel_size
  channels * outputSize * outputSize * kernel_size * kernel_size

/-- `avgpool2d.calculateFLOPs(params, channels = 64, inputSize = 224)`: the
same formula as `maxpool2d.calculateFLOPs`. -/
def avgpool2d_calculateFLOPs (kernel_size channels inputSize : ℕ) : ℕ :=
  let outputSize := inputSize / kernel_size
  channels * outputSize * outputSize * kernel_size * kernel_size

/-- A layer configuration value-map, one constructor per layer kind of
`getLayerTypes`, carrying exactly the numeric/boolean fields the kind's
formulas read (plus the fractional `rate`/`dropout` defaults, which no
formula reads). -/
inductive LayerConfig where
  | embedding (vocab_size embedding_dim : ℕ)
  | linear (input_dim output_dim : ℕ) (use_bias : Bool)
  | conv2d (in_channels out_channels kernel_size : ℕ) (use_bias : Bool)
  | lstm (input_size hidden_size num_layers : ℕ) (bidirectional : Bool)
  | transformer (d_model num_heads d_ff : ℕ) (dropout_rate : ℚ)
  | batchnorm (num_features : ℕ)
  | dropout (rate : ℚ)
  | maxpool2d (kernel_size : ℕ)
  | avgpool2d (kernel_size : ℕ)
  | layernorm (normalized_shape : ℕ)
  | gru (input_size hidden_size num_layers : ℕ) (bidirectional : Bool)
  | attention (d_model num_heads : ℕ)
  | relu
  | softmax

/-- Registry dispatch for parameter counting: `LAYER_TYPES[type].calculate`
applied to a configuration.  Kinds whose `calculate` is `() => 0` return 0. -/
def calculate : LayerConfig → ℕ
  | .embedding v e => embedding_calculate v e
  | .linear i o b => linear_calculate i o b
  | .conv2d ci co k b => conv2d_calculate ci co k b
  | .lstm i h l b => lstm_calculate i h l b
  | .transformer d _nh dff _r => transformer_calculate d dff
  | .batchnorm f => batchnorm_calculate f
  | .dropout _ => 0
  | .maxpool2d _ => 0
  | .avgpool2d _ => 0
  | .layernorm n => layernorm_calculate n
  | .gru i h l b => gru_calculate i h l b
  | .attention d _ => attention_calculate d
  | .relu => 0
  | .softmax => 0

/-- Registry dispatch for FLOPs with the context omitted:
`LAYER_TYPES[type].calculateFLOPs(params)`, so every defaulted context
argument takes its declared default (`inputSize = 224`, `seqLen = 128` for
recurrent kinds, `seqLen = 512` for transformer/attention/layernorm,
`batchSize = 32`, `spatialSize = 1`, `channels = 64`). -/
def calculateFLOPsDefault : LayerConfig → ℕ
  | .embedding _ _ => 0
  | .linear i o _ => linear_calculateFLOPs i o
  | .conv2d ci co k _ => conv2d_calculateFLOPs ci co k 224
  | .lstm i h l b => lstm_calculateFLOPs i h l b 128
  | .transformer d _nh dff _r => transformer_calculateFLOPs d dff 512
  | .batchnorm f => batchnorm_calculateFLOPs f 32 1
  | .dropout _ => 0
  | .maxpool2d k => maxpool2d_calculateFLOPs k 64 224
  | .avgpool2d k => avgpool2d_calculateFLOPs k 64 224
  | .layernorm n => layernorm_calculateFLOPs n 32 512
  | .gru i h l b => gru_calculateFLOPs i h l b 128
  | .attention d _ => attention_calculateFLOPs d 512
  | .relu => 0
  | .softmax => 0

/-! ## Memory estimator (`calculateMemory` in src/config/layerTypes.js) -/

/-- The `bytesPerParam` object literal of `calculateMemory`:
`{'fp32': 4, 'fp16': 2, 'bf16': 2, 'int8': 1}`, as an association list. -/
def bytesPerParamTable : List (String × ℕ) :=
  [("fp32", 4), ("fp16", 2), ("bf16", 2), ("int8", 1)]

/-- `calculateMemory(totalParams, mode, precision)`:
`bytes = bytesPerParam[precision] || 4`; for `mode === 'inference'` the result
is `totalParams * bytes`, otherwise `totalParams * bytes * 4`. -/
def calculateMemory (totalParams : ℕ) (mode precision : String) : ℕ :=
  let bytes := (bytesPerParamTable.lookup precision).getD 4
  if mode = "inference" then
    totalParams * bytes
  else
    totalParams * bytes * 4

/-! ## Model aggregator (src/components/LayerCal.jsx) -/

/-- `totalParams`: `modelLayers.reduce((total, layer) =>
total + config.calculate(layer.params), 0)`. -/
def totalParams (model : List LayerConfig) : ℕ :=
  model.foldl (fun total layer => total + calculate layer) 0

/-- The per-layer percentage of the layer-distribution panel:
`totalParams > 0 ? (layerParams / totalParams) * 100 : '0.0'`, as a rational
(`toFixed(1)` is display formatting). -/
def layerPercentage (layerParams total : ℕ) : ℚ :=
  if 0 < total then ((layerParams : ℚ) / (total : ℚ)) * 100 else 0

/-- The layer-distribution breakdown: `modelLayers.map` of each layer's
percentage share. -/
def layerDistribution (model : List LayerConfig) : List ℚ :=
  model.map (fun layer => layerPercentage (calculate layer) (totalParams model))

/-! ## Configuration update (`updateLayerParam` in src/components/LayerCal.jsx) -/

/-- A JavaScript value stored in a layer's `params` object: a number, a
boolean (checkbox fields) or a string. -/
inductive JSValue where
  | num (q : ℚ)
  | bool (b : Bool)
  | str (s : String)

/-- The validation step of `updateLayerParam`:
`typeof value === 'number' && paramKey !== 'rate'` replaces the value with
`Math.max(1, Math.floor(value))`; every other value is stored unchanged. -/
def validatedValue (paramKey : String) (value : JSValue) : JSValue :=
  match value with
  | .num q => if paramKey ≠ "rate" then .num ((max 1 ⌊q⌋ : ℤ) : ℚ) else .num q
  | v => v

/-- A placed layer as `LayerCal.jsx` stores it: `{id, type, params}`, with
the `params` object as a total map from field keys to values. -/
structure ModelLayer where
  id : ℕ
  type : String
  params : String → JSValue

/-- `updateLayerParam(id, paramKey, value)`: map over the layer list, return
every layer whose `id` differs unchanged, and rebuild the matching layer with
`params = { ...layer.params, [paramKey]: validatedValue }`. -/
def updateLayerParam (layers : List ModelLayer) (id : ℕ) (paramKey : String)
    (value : JSValue) : List ModelLayer :=
  layers.map fun layer =>
    if layer.id ≠ id then layer
    else { layer with
            params := Function.update layer.params paramKey
              (validatedValue paramKey value) }

/-! ## Grouping pass -/

/-- Modelled from the spec: the repository's files do not include
`src/utils/codeGenerator.js`, which implements the Grouping Pass the code
generators share; `LayerCal.jsx` only imports its generators.  Following the
spec's data model, a layer instance is a stable identity, a kind tag, and a
configuration value-map. -/
structure LayerInstance where
  lid : ℕ
  kind : String
  config : List (String × ℕ)
deriving DecidableEq

/-- Modelled from the spec: two instances belong to the same run when their
kind tags and configuration value-maps are deeply equal. -/
def sameGroupKey (a b : LayerInstance) : Bool :=
  decide (a.kind = b.kind) && decide (a.config = b.config)

/-- Modelled from the spec: the single left-to-right scan of the Grouping
Pass.  `first` is the current group's first member, `members` the members
accumulated so far (reversed); an instance deeply equal to `first` joins the
current group, anything else closes the group and starts a new one. -/
def groupAux (first : LayerInstance) (members : List LayerInstance) :
    List LayerInstance → List (List LayerInstance)
  | [] => [members.reverse]
  | y :: ys =>
    if sameGroupKey first y then groupAux first (y :: members) ys
    else members.reverse :: groupAux y [y] ys

/-- Modelled from the spec: `group(sequence of LayerInstance)`, run-length
encoding keyed on (kind, configuration). -/
def groupLayers : List LayerInstance → List (List LayerInstance)
  | [] => []
  | x :: xs => groupAux x [x] xs

end LayerCal

namespace LayerCal

/-! ## Theorems, one per claim -/

/-- Folding `fun a i => a + f i` over a list from `c` adds the sum of the
mapped list; bridges the registry's accumulator loops to explicit sums. -/
theorem foldl_add_eq_sum (f : ℕ → ℕ) :
    ∀ (l : List ℕ) (c : ℕ),
      l.foldl (fun a i => a + f i) c = c + (l.map f).sum := by
  intro l
  induction l with
  | nil => intro c; simp
  | cons x xs ih =>
    intro c
    simp only [List.foldl_cons, List.map_cons, List.sum_cons, ih]
    omega

/-- C1 counterexample: with the context omitted, LayerNorm FLOPs at
`normalized_shape = 512` are not `512 * 32 * 1 * 5`: the omitted second
context argument defaults to `seqLen = 512`, not to a spatial multiplier of
1, so the code returns `512 * 32 * 512 * 5 = 41943040`. -/
theorem layernorm_default_flops_counterexample :
    ¬ (calculateFLOPsDefault (.layernorm 512) = 512 * 32 * 1 * 5) := by
  decide

/-- C1 (amended): with the context omitted, BatchNorm FLOPs use the defaults
batch size 32 and spatial multiplier 1, so `flops = num_features * 32 * 1 * 4`;
LayerNorm FLOPs use the defaults batch size 32 and sequence length 512, so
`flops = normalized_shape * 32 * 512 * 5`. -/
theorem norm_flops_defaults :
    (∀ F : ℕ, calculateFLOPsDefault (.batchnorm F) = F * 32 * 1 * 4) ∧
    (∀ F : ℕ, calculateFLOPsDefault (.layernorm F) = F * 32 * 512 * 5) := by
  constructor
  · intro F
    simp [calculateFLOPsDefault, batchnorm_calculateFLOPs]
  · intro F
    simp [calculateFLOPsDefault, layernorm_calculateFLOPs]

/-- C2: `lstm.calculate` sums, over layers `0 .. L - 1`, the quantity
`dir * (4 * (input_dim * H + H² + 2 * H))` with `input_dim = I` for layer 0
and `H * dir` afterwards; at `(I, H, L, bidirectional) = (128, 256, 1, false)`
it yields 395264 parameters. -/
theorem lstm_parameterCount_layers :
    (∀ (I H L : ℕ) (b : Bool),
      lstm_calculate I H L b =
        ((List.range L).map (fun layer =>
          (if b then 2 else 1) *
            (4 * ((if layer = 0 then I else H * (if b then 2 else 1)) * H +
                  H * H + 2 * H)))).sum) ∧
    lstm_calculate 128 256 1 false = 395264 := by
  constructor
  · intro I H L b
    simp only [lstm_calculate]
    rw [foldl_add_eq_sum
      (fun layer =>
        4 * ((if layer = 0 then I else H * (if b then 2 else 1)) * H +
              H * H + H * 2) * (if b then 2 else 1))]
    rw [Nat.zero_add]
    refine congrArg List.sum (List.map_congr_left ?_)
    intro layer _
    ring
  · decide

/-- C3: for identical input size, hidden size, `num_layers = 1` and
bidirectional flag, the GRU parameter count is exactly 0.75 times the LSTM
parameter count. -/
theorem gru_three_quarters_lstm :
    ∀ (I H : ℕ) (b : Bool),
      (gru_calculate I H 1 b : ℚ) = 0.75 * (lstm_calculate I H 1 b : ℚ) := by
  intro I H b
  have h34 : (0.75 : ℚ) = 3 / 4 := by norm_num
  have h1 : List.range 1 = [0] := rfl
  rw [h34]
  cases b <;> simp [gru_calculate, lstm_calculate, h1] <;> ring

/-- C7: `linear.calculate` returns `I * O + O` with the bias flag set and
`I * O` without it, and `linear.calculateFLOPs` returns `2 * I * O` whatever
the bias flag; at `(I, O) = (512, 256)` with bias this gives 131328
parameters and 262144 FLOPs. -/
theorem linear_params_flops :
    (∀ I O : ℕ, linear_calculate I O true = I * O + O) ∧
    (∀ I O : ℕ, linear_calculate I O false = I * O) ∧
    (∀ (I O : ℕ) (b : Bool),
      calculateFLOPsDefault (.linear I O b) = 2 * I * O) ∧
    calculate (.linear 512 256 true) = 131328 ∧
    calculateFLOPsDefault (.linear 512 256 true) = 262144 := by
  refine ⟨?_, ?_, ?_, by decide, by decide⟩
  · intro I O; simp [linear_calculate]
  · intro I O; simp [linear_calculate]
  · intro I O b; simp [calculateFLOPsDefault, linear_calculateFLOPs]

/-- C4: for every total parameter count and every precision key,
`calculateMemory` in training mode returns exactly 4 times what it returns in
inference mode. -/
theorem calculateMemory_training_times4 :
    ∀ (p : ℕ) (precision : String),
      calculateMemory p "training" precision =
        4 * calculateMemory p "inference" precision := by
  intro p precision
  simp [calculateMemory]
  ring

/-- C5: `calculateMemory` reads bytes-per-parameter from the fixed table
{fp32 ↦ 4, fp16 ↦ 2, bf16 ↦ 2, int8 ↦ 1}; any precision key outside the table
falls back to 4 bytes, and in particular
`calculateMemory(1000000, 'inference', 'tf32') = 4000000`. -/
theorem calculateMemory_precision_fallback :
    (bytesPerParamTable.lookup "fp32" = some 4 ∧
      bytesPerParamTable.lookup "fp16" = some 2 ∧
      bytesPerParamTable.lookup "bf16" = some 2 ∧
      bytesPerParamTable.lookup "int8" = some 1) ∧
    (∀ p : String, p ∉ ["fp32", "fp16", "bf16", "int8"] →
      (bytesPerParamTable.lookup p).getD 4 = 4) ∧
    calculateMemory 1000000 "inference" "tf32" = 4000000 := by
  refine ⟨⟨by decide, by decide, by decide, by decide⟩, ?_, by decide⟩
  intro p hp
  simp only [List.mem_cons, List.not_mem_nil, or_false, not_or] at hp
  obtain ⟨h1, h2, h3, h4⟩ := hp
  have e1 : (p == "fp32") = false := beq_eq_false_iff_ne.mpr h1
  have e2 : (p == "fp16") = false := beq_eq_false_iff_ne.mpr h2
  have e3 : (p == "bf16") = false := beq_eq_false_iff_ne.mpr h3
  have e4 : (p == "int8") = false := beq_eq_false_iff_ne.mpr h4
  simp [bytesPerParamTable, List.lookup, e1, e2, e3, e4]

/-- C10: `calculateMemory` applies the 4× training multiplier for every mode
string other than exactly `'inference'`: any unrecognized mode silently takes
the `else` branch and returns `totalParams * bytesPerParam * 4`. -/
theorem calculateMemory_unrecognized_mode :
    ∀ (p : ℕ) (mode precision : String), mode ≠ "inference" →
      calculateMemory p mode precision =
        p * ((bytesPerParamTable.lookup precision).getD 4) * 4 := by
  intro p mode precision h
  simp only [calculateMemory]
  rw [if_neg h]

/-- Witness for C10 at the concrete unrecognized mode string `'oops'`. -/
theorem calculateMemory_unrecognized_mode_witness :
    calculateMemory 1000000 "oops" "fp32" =
      1000000 * ((bytesPerParamTable.lookup "fp32").getD 4) * 4 :=
  calculateMemory_unrecognized_mode 1000000 "oops" "fp32" (by decide)

/-- C6: the layer-distribution breakdown has one entry per layer of the
Model, in Model order; the `i`-th entry is
`100 * parameterCount(layer_i) / totalParams` when `totalParams > 0` and `0`
when `totalParams = 0`, so a zero-parameter model divides nowhere. -/
theorem layerDistribution_percentage :
    ∀ (model : List LayerConfig) (i : ℕ),
      (layerDistribution model).length = model.length ∧
      (layerDistribution model)[i]? =
        model[i]?.map (fun layer =>
          if 0 < totalParams model then
            100 * (calculate layer : ℚ) / (totalParams model : ℚ)
          else 0) := by
  intro model i
  refine ⟨by simp [layerDistribution], ?_⟩
  simp only [layerDistribution, List.getElem?_map]
  cases h : model[i]? with
  | none => simp
  | some layer =>
    simp only [Option.map_some', Option.some.injEq, layerPercentage]
    split
    · ring
    · rfl

/-- C8: `updateLayerParam` maps the layer list to a list of the same shape in
which every layer with a different id is returned unchanged, and the matching
layer keeps its id and type, stores `max 1 ⌊value⌋` under any numeric field
key other than `'rate'`, stores a numeric value under `'rate'` unchanged, and
leaves every other field of its params map unmodified. -/
theorem updateLayerParam_clamp :
    ∀ (layers : List ModelLayer) (tid : ℕ) (key : String) (q : ℚ),
      List.Forall₂ (fun layer layer' =>
        (layer.id ≠ tid → layer' = layer) ∧
        (layer.id = tid →
          layer'.id = layer.id ∧ layer'.type = layer.type ∧
          (key ≠ "rate" → layer'.params key = JSValue.num ((max 1 ⌊q⌋ : ℤ) : ℚ)) ∧
          (key = "rate" → layer'.params key = JSValue.num q) ∧
          (∀ k, k ≠ key → layer'.params k = layer.params k)))
        layers (updateLayerParam layers tid key (JSValue.num q)) := by
  intro layers tid key q
  rw [updateLayerParam, List.forall₂_map_right_iff]
  rw [List.forall₂_same]
  intro layer _
  by_cases hid : layer.id = tid
  · rw [if_neg (by simp [hid])]
    refine ⟨fun h => absurd hid h, fun _ => ⟨rfl, rfl, ?_, ?_, ?_⟩⟩
    · intro hk
      show Function.update layer.params key (validatedValue key (JSValue.num q))
            key = _
      rw [Function.update_same, validatedValue, if_pos hk]
    · intro hk
      show Function.update layer.params key (validatedValue key (JSValue.num q))
            key = _
      rw [Function.update_same, validatedValue, if_neg (by simp [hk])]
    · intro k hk
      show Function.update layer.params key (validatedValue key (JSValue.num q))
            k = layer.params k
      exact Function.update_noteq hk _ _
  · rw [if_pos hid]
    exact ⟨fun _ => rfl, fun h => absurd h hid⟩

/-- A group built by the grouping scan from a first member and the already
accumulated members (all sharing the first member's key) only ever contains
instances of one kind and configuration. -/
theorem groupAux_members_eq :
    ∀ (rest : List LayerInstance) (first : LayerInstance)
      (members : List LayerInstance),
      (∀ m ∈ members, sameGroupKey first m = true) →
      ∀ g ∈ groupAux first members rest, ∀ a ∈ g, ∀ b ∈ g,
        a.kind = b.kind ∧ a.config = b.config := by
  intro rest
  induction rest with
  | nil =>
    intro first members hinv g hg a ha b hb
    simp only [groupAux, List.mem_singleton] at hg
    subst hg
    rw [List.mem_reverse] at ha hb
    have hfa := hinv a ha
    have hfb := hinv b hb
    simp only [sameGroupKey, Bool.and_eq_true, decide_eq_true_eq] at hfa hfb
    exact ⟨hfa.1 ▸ hfb.1, hfa.2 ▸ hfb.2⟩
  | cons y ys ih =>
    intro first members hinv g hg a ha b hb
    simp only [groupAux] at hg
    by_cases hy : sameGroupKey first y = true
    · rw [if_pos hy] at hg
      refine ih first (y :: members) ?_ g hg a ha b hb
      intro m hm
      rcases List.mem_cons.mp hm with hm | hm
      · exact hm ▸ hy
      · exact hinv m hm
    · rw [if_neg hy] at hg
      rcases List.mem_cons.mp hg with hg | hg
      · subst hg
        rw [List.mem_reverse] at ha hb
        have hfa := hinv a ha
        have hfb := hinv b hb
        simp only [sameGroupKey, Bool.and_eq_true, decide_eq_true_eq] at hfa hfb
        exact ⟨hfa.1 ▸ hfb.1, hfa.2 ▸ hfb.2⟩
      · refine ih y [y] ?_ g hg a ha b hb
        intro m hm
        rcases List.mem_singleton.mp hm with rfl
        simp [sameGroupKey]

/-- C9: the Grouping Pass never merges two layers of identical kind but
different configuration into one group: any two members of any group emitted
by `groupLayers` share both the kind tag and the configuration value-map. -/
theorem groupLayers_members_same_kind_config :
    ∀ (l : List LayerInstance), ∀ g ∈ groupLayers l, ∀ a ∈ g, ∀ b ∈ g,
      a.kind = b.kind ∧ a.config = b.config := by
  intro l g hg a ha b hb
  cases l with
  | nil => simp [groupLayers] at hg
  | cons x xs =>
    refine groupAux_members_eq xs x [x] ?_ g hg a ha b hb
    intro m hm
    rcases List.mem_singleton.mp hm with rfl
    simp [sameGroupKey]

/-- Witness for C9: grouping two Linear instances with distinct identities
but identical kind and configuration puts them in one group, whose members
indeed share kind and configuration. -/
theorem groupLayers_members_witness :
    (LayerInstance.mk 1 "linear" [("output_dim", 256)]).kind =
        (LayerInstance.mk 2 "linear" [("output_dim", 256)]).kind ∧
      (LayerInstance.mk 1 "linear" [("output_dim", 256)]).config =
        (LayerInstance.mk 2 "linear" [("output_dim", 256)]).config :=
  groupLayers_members_same_kind_config
    [LayerInstance.mk 1 "linear" [("output_dim", 256)],
      LayerInstance.mk 2 "linear" [("output_dim", 256)]]
    [LayerInstance.mk 1 "linear" [("output_dim", 256)],
      LayerInstance.mk 2 "linear" [("output_dim", 256)]]
    (by decide)
    (LayerInstance.mk 1 "linear" [("output_dim", 256)]) (by decide)
    (LayerInstance.mk 2 "linear" [("output_dim", 256)]) (by decide)

end LayerCal
